import Mathlib

/-!
Shallow embedding of `src/script.js` from the my-portfolio repository.

The script is a load-time UI initializer.  On the `load` event it
  1. sets `document.body.style.display = "block"`,
  2. schedules a 50ms `setTimeout` whose callback sets `document.body.style.opacity = 1`,
  3. adds class `show` to the element with id `popup`,
  4. adds class `blur` to the element matched by `.container`,
  5. removes class `hide` from the element with id `overlay`,
  6. attaches a `click` listener on the element with id `close-popup` which
     removes `show` from `popup`, removes `blur` from `.container`, and adds
     `hide` to `overlay`.

Each DOM lookup may return `null`; a mutation on `null` raises an uncaught
TypeError that aborts the remaining statements of the handler in which it
occurs.  We model elements as `Option Elem`, class lists as `List String`
with `DOMTokenList` add/remove semantics, the body style as an explicit
record (with a `rest` field standing for every style property the script
never touches), and the event loop as a step function over host events
(`load`, `click` on the close control, timer expiry).
-/

/-- A DOM element reduced to its class list, the only part the script reads
or writes on the four looked-up elements. -/
structure Elem where
  classList : List String
  deriving DecidableEq

/-- Semantics of `DOMTokenList.add`: append the token unless it is already
present. -/
def classAdd (cs : List String) (c : String) : List String :=
  if c ∈ cs then cs else cs ++ [c]

/-- Semantics of `DOMTokenList.remove`: delete every occurrence of the
token. -/
def classRemove (cs : List String) (c : String) : List String :=
  cs.filter (· != c)

/-- The body's inline style.  `display` and `opacity` are the two properties
the script writes; `rest` stands for every other style property of the body,
which the script never touches. -/
structure Body where
  display : String
  opacity : String
  rest : List (String × String)
  deriving DecidableEq

/-- The page state the script observes: the body (always present — a document
always has a body) and the four looked-up elements, each possibly absent
(`getElementById` / `querySelector` returning `null`). -/
structure Dom where
  body : Body
  popup : Option Elem
  container : Option Elem
  overlay : Option Elem
  closePopup : Option Elem
  deriving DecidableEq

/-- Whether an optional element is present and carries the given class. -/
def hasClass : Option Elem → String → Bool
  | none, _ => false
  | some el, c => decide (c ∈ el.classList)

/-- Result of running the close-button click handler: the DOM afterwards and
whether a null-reference fault aborted the handler. -/
structure ClickResult where
  dom : Dom
  fault : Bool
  deriving DecidableEq

/-- The click handler attached to `close-popup` (src/script.js lines 10–14),
statement by statement.  Each lookup is re-done at click time; a `null`
lookup faults and aborts the remaining statements of the handler only. -/
def clickHandler (d : Dom) : ClickResult :=
  -- document.getElementById("popup").classList.remove("show");
  match d.popup with
  | none => ⟨d, true⟩
  | some p =>
    let d1 : Dom := { d with popup := some ⟨classRemove p.classList "show"⟩ }
    -- document.querySelector(".container").classList.remove("blur");
    match d1.container with
    | none => ⟨d1, true⟩
    | some c =>
      let d2 : Dom := { d1 with container := some ⟨classRemove c.classList "blur"⟩ }
      -- document.getElementById("overlay").classList.add("hide");
      match d2.overlay with
      | none => ⟨d2, true⟩
      | some o => ⟨{ d2 with overlay := some ⟨classAdd o.classList "hide"⟩ }, false⟩

/-- Result of running the load handler: the DOM afterwards, the list of
delays of the timers it scheduled (in scheduling order), whether the
close-button click listener got attached, and whether a null-reference fault
aborted the handler. -/
structure LoadResult where
  dom : Dom
  timers : List Nat
  clickAttached : Bool
  fault : Bool
  deriving DecidableEq

/-- The `load` handler (src/script.js lines 1–15), statement by statement.
The body is always present, so the `display` write and the `setTimeout`
always execute; each element lookup may fault, aborting the remaining
statements of the handler only.  No timer handle is retained, so the
scheduled timer is never cancelled. -/
def loadHandler (d : Dom) : LoadResult :=
  -- document.body.style.display = "block";
  let d0 : Dom := { d with body := { d.body with display := "block" } }
  -- setTimeout(function() { ... }, 50);
  let timers : List Nat := [50]
  -- document.getElementById("popup").classList.add("show");
  match d0.popup with
  | none => ⟨d0, timers, false, true⟩
  | some p =>
    let d1 : Dom := { d0 with popup := some ⟨classAdd p.classList "show"⟩ }
    -- document.querySelector(".container").classList.add("blur");
    match d1.container with
    | none => ⟨d1, timers, false, true⟩
    | some c =>
      let d2 : Dom := { d1 with container := some ⟨classAdd c.classList "blur"⟩ }
      -- document.getElementById("overlay").classList.remove("hide");
      match d2.overlay with
      | none => ⟨d2, timers, false, true⟩
      | some o =>
        let d3 : Dom := { d2 with overlay := some ⟨classRemove o.classList "hide"⟩ }
        -- document.getElementById("close-popup").addEventListener("click", ...);
        match d3.closePopup with
        | none => ⟨d3, timers, false, true⟩
        | some _ => ⟨d3, timers, true, false⟩

/-- The body of the `setTimeout` callback (src/script.js lines 3–5):
`document.body.style.opacity = 1` (the number 1 is serialized to the string
"1" by the CSSOM). -/
def timerCallback (d : Dom) : Dom :=
  { d with body := { d.body with opacity := "1" } }

/-- Host events dispatched by the browser: the one-shot `load` lifecycle
event, a user click on the close control, and expiry of the scheduled
timer. -/
inductive Ev where
  | load
  | click
  | timer
  deriving DecidableEq

/-- Whole-system state: the DOM plus the host bookkeeping — whether `load`
has been dispatched, whether the close-click listener is attached, whether
the 50ms timer is pending, and whether any handler has faulted so far. -/
structure Sys where
  dom : Dom
  loadFired : Bool
  clickAttached : Bool
  timerPending : Bool
  fault : Bool
  deriving DecidableEq

/-- One step of the single-threaded event loop.  The browser fires `load`
once per document, so a second `load` event is a no-op; a click runs the
close handler only if its listener is attached; the timer callback runs only
if the timer is pending, and the timer is single-shot. -/
def step (s : Sys) : Ev → Sys
  | Ev.load =>
    if s.loadFired then s
    else
      let r := loadHandler s.dom
      { dom := r.dom, loadFired := true, clickAttached := r.clickAttached,
        timerPending := r.timers ≠ [], fault := s.fault || r.fault }
  | Ev.click =>
    if s.clickAttached then
      let r := clickHandler s.dom
      { s with dom := r.dom, fault := s.fault || r.fault }
    else s
  | Ev.timer =>
    if s.timerPending then
      { s with dom := timerCallback s.dom, timerPending := false }
    else s

/-- Run a trace of host events from a state. -/
def run (s : Sys) (tr : List Ev) : Sys :=
  tr.foldl step s

/-- The system state before any event: the given page, `load` not yet fired,
no listener attached, no timer pending, no fault. -/
def initSys (d : Dom) : Sys :=
  { dom := d, loadFired := false, clickAttached := false,
    timerPending := false, fault := false }

/-- All four looked-up elements are present in the page. -/
def allPresent (d : Dom) : Prop :=
  d.popup.isSome ∧ d.container.isSome ∧ d.overlay.isSome ∧ d.closePopup.isSome

/-- The popup is shown: its class list contains `show`. -/
def popupShown (d : Dom) : Bool :=
  hasClass d.popup "show"

/-- The container is blurred: its class list contains `blur`. -/
def containerBlurred (d : Dom) : Bool :=
  hasClass d.container "blur"

/-- The overlay is visible: its class list does not contain `hide`. -/
def overlayVisible (d : Dom) : Bool :=
  !hasClass d.overlay "hide"

/-- The three popup-related booleans agree (the spec's lockstep
invariant). -/
def inSync (d : Dom) : Prop :=
  popupShown d = containerBlurred d ∧ containerBlurred d = overlayVisible d

/-- Concrete sample page used by the witnesses: all four elements present,
popup closed, overlay hidden, body initially not displayed and transparent. -/
def sampleDom : Dom :=
  { body := { display := "none", opacity := "0", rest := [("color", "black")] }
    popup := some ⟨["popup"]⟩
    container := some ⟨["container"]⟩
    overlay := some ⟨["overlay", "hide"]⟩
    closePopup := some ⟨["close"]⟩ }

/-! ### Basic lemmas about class-list operations -/

theorem mem_classAdd_self (cs : List String) (c : String) : c ∈ classAdd cs c := by
  unfold classAdd
  split
  · assumption
  · simp

theorem not_mem_classRemove_self (cs : List String) (c : String) : c ∉ classRemove cs c := by
  simp [classRemove]

theorem classAdd_idem (cs : List String) (c : String) :
    classAdd (classAdd cs c) c = classAdd cs c := by
  by_cases h : c ∈ cs <;> simp [classAdd, h]

theorem classRemove_idem (cs : List String) (c : String) :
    classRemove (classRemove cs c) c = classRemove cs c := by
  simp [classRemove, List.filter_filter]

/-! ### Evaluation lemmas for the handlers -/

theorem loadHandler_present (b : Body) (p c o cp : Elem) :
    loadHandler ⟨b, some p, some c, some o, some cp⟩ =
      ⟨⟨⟨"block", b.opacity, b.rest⟩, some ⟨classAdd p.classList "show"⟩,
        some ⟨classAdd c.classList "blur"⟩, some ⟨classRemove o.classList "hide"⟩,
        some cp⟩, [50], true, false⟩ := rfl

theorem clickHandler_present (b : Body) (p c o : Elem) (cp : Option Elem) :
    clickHandler ⟨b, some p, some c, some o, cp⟩ =
      ⟨⟨b, some ⟨classRemove p.classList "show"⟩, some ⟨classRemove c.classList "blur"⟩,
        some ⟨classAdd o.classList "hide"⟩, cp⟩, false⟩ := rfl

theorem loadHandler_noPopup (b : Body) (c o cp : Option Elem) :
    loadHandler ⟨b, none, c, o, cp⟩ =
      ⟨⟨⟨"block", b.opacity, b.rest⟩, none, c, o, cp⟩, [50], false, true⟩ := rfl

theorem clickHandler_noContainer (b : Body) (p : Elem) (o cp : Option Elem) :
    clickHandler ⟨b, some p, none, o, cp⟩ =
      ⟨⟨b, some ⟨classRemove p.classList "show"⟩, none, o, cp⟩, true⟩ := rfl

theorem loadHandler_body (d : Dom) :
    (loadHandler d).dom.body = ⟨"block", d.body.opacity, d.body.rest⟩ := by
  rcases d with ⟨b, p, c, o, cp⟩
  cases p <;> cases c <;> cases o <;> cases cp <;> rfl

theorem loadHandler_timers (d : Dom) : (loadHandler d).timers = [50] := by
  rcases d with ⟨b, p, c, o, cp⟩
  cases p <;> cases c <;> cases o <;> cases cp <;> rfl

theorem loadHandler_fault_of_absent (d : Dom)
    (h : d.popup = none ∨ d.container = none ∨ d.overlay = none ∨ d.closePopup = none) :
    (loadHandler d).fault = true := by
  rcases d with ⟨b, p, c, o, cp⟩
  cases p <;> cases c <;> cases o <;> cases cp <;> simp_all [loadHandler]

theorem clickHandler_body (d : Dom) : (clickHandler d).dom.body = d.body := by
  rcases d with ⟨b, p, c, o, cp⟩
  cases p <;> cases c <;> cases o <;> rfl

/-! ### Lemmas about the event loop -/

theorem run_nil (s : Sys) : run s [] = s := rfl

theorem run_cons (s : Sys) (e : Ev) (tr : List Ev) :
    run s (e :: tr) = run (step s e) tr := rfl

theorem step_click_notAttached (s : Sys) (h : s.clickAttached = false) :
    step s Ev.click = s := by
  simp [step, h]

theorem step_load_initSys (d : Dom) :
    step (initSys d) Ev.load =
      ⟨(loadHandler d).dom, true, (loadHandler d).clickAttached, true,
        (loadHandler d).fault⟩ := by
  simp [step, initSys, loadHandler_timers]

theorem step_clickAttached_of_ne_load (s : Sys) (e : Ev) (h : e ≠ Ev.load) :
    (step s e).clickAttached = s.clickAttached := by
  cases e
  · exact absurd rfl h
  · simp only [step]
    split <;> rfl
  · simp only [step]
    split <;> rfl

theorem step_opacity_of_ne_timer (s : Sys) (e : Ev) (h : e ≠ Ev.timer) :
    (step s e).dom.body.opacity = s.dom.body.opacity := by
  cases e
  · simp only [step]
    split
    · rfl
    · simp [loadHandler_body]
  · simp only [step]
    split
    · simp [clickHandler_body]
    · rfl
  · exact absurd rfl h

theorem run_opacity_of_not_timer (s : Sys) (tr : List Ev) (h : Ev.timer ∉ tr) :
    (run s tr).dom.body.opacity = s.dom.body.opacity := by
  induction tr generalizing s with
  | nil => rfl
  | cons e tr ih =>
    have he : e ≠ Ev.timer := fun hee => h (hee ▸ List.mem_cons_self e tr)
    have h2 : Ev.timer ∉ tr := fun hm => h (List.mem_cons_of_mem e hm)
    rw [run_cons, ih (step s e) h2, step_opacity_of_ne_timer s e he]

theorem run_load_mem_of_clickAttached (s : Sys) (tr : List Ev)
    (h0 : s.clickAttached = false) (h : (run s tr).clickAttached = true) :
    Ev.load ∈ tr := by
  induction tr generalizing s with
  | nil =>
    rw [run_nil] at h
    rw [h0] at h
    exact absurd h (by simp)
  | cons e tr ih =>
    by_cases he : e = Ev.load
    · exact he ▸ List.mem_cons_self e tr
    · rw [run_cons] at h
      have hst : (step s e).clickAttached = false :=
        (step_clickAttached_of_ne_load s e he).trans h0
      exact List.mem_cons_of_mem e (ih (step s e) hst h)

theorem run_clicks_noop (s : Sys) (tr : List Ev) (h0 : s.clickAttached = false)
    (htr : ∀ e ∈ tr, e = Ev.click) : run s tr = s := by
  induction tr with
  | nil => rfl
  | cons e tr ih =>
    have he : e = Ev.click := htr e (List.mem_cons_self e tr)
    subst he
    rw [run_cons, step_click_notAttached s h0]
    exact ih fun e hm => htr e (List.mem_cons_of_mem _ hm)

theorem run_load_timer_opacity (d : Dom) :
    (run (initSys d) [Ev.load, Ev.timer]).dom.body.opacity = "1" := by
  rw [run_cons, step_load_initSys, run_cons, run_nil]
  simp [step, timerCallback]

/-! ### Preservation of the lockstep invariant -/

theorem loadHandler_sync (d : Dom) (hp : allPresent d) :
    allPresent (loadHandler d).dom ∧ inSync (loadHandler d).dom := by
  obtain ⟨h1, h2, h3, h4⟩ := hp
  rcases d with ⟨b, po, co, ov, cp⟩
  obtain ⟨p, rfl⟩ := Option.isSome_iff_exists.mp h1
  obtain ⟨c, rfl⟩ := Option.isSome_iff_exists.mp h2
  obtain ⟨o, rfl⟩ := Option.isSome_iff_exists.mp h3
  obtain ⟨q, rfl⟩ := Option.isSome_iff_exists.mp h4
  rw [loadHandler_present]
  refine ⟨⟨rfl, rfl, rfl, rfl⟩, ?_⟩
  simp [inSync, popupShown, containerBlurred, overlayVisible, hasClass,
    mem_classAdd_self, not_mem_classRemove_self]

theorem clickHandler_sync (d : Dom) (hp : allPresent d) :
    allPresent (clickHandler d).dom ∧ inSync (clickHandler d).dom := by
  obtain ⟨h1, h2, h3, h4⟩ := hp
  rcases d with ⟨b, po, co, ov, cp⟩
  obtain ⟨p, rfl⟩ := Option.isSome_iff_exists.mp h1
  obtain ⟨c, rfl⟩ := Option.isSome_iff_exists.mp h2
  obtain ⟨o, rfl⟩ := Option.isSome_iff_exists.mp h3
  rw [clickHandler_present]
  refine ⟨⟨rfl, rfl, rfl, h4⟩, ?_⟩
  simp [inSync, popupShown, containerBlurred, overlayVisible, hasClass,
    mem_classAdd_self, not_mem_classRemove_self]

theorem step_preserves_sync (s : Sys) (e : Ev)
    (h : allPresent s.dom ∧ inSync s.dom) :
    allPresent (step s e).dom ∧ inSync (step s e).dom := by
  cases e
  · simp only [step]
    split
    · exact h
    · exact loadHandler_sync s.dom h.1
  · simp only [step]
    split
    · exact clickHandler_sync s.dom h.1
    · exact h
  · simp only [step]
    split
    · rcases s with ⟨⟨b, po, co, ov, cp⟩, lf, ca, tp, f⟩
      exact h
    · exact h

theorem run_preserves_sync (s : Sys) (tr : List Ev)
    (h : allPresent s.dom ∧ inSync s.dom) :
    allPresent (run s tr).dom ∧ inSync (run s tr).dom := by
  induction tr generalizing s with
  | nil => exact h
  | cons e tr ih => exact run_cons s e tr ▸ ih (step s e) (step_preserves_sync s e h)

/-! ### Lemmas about absent elements -/

theorem loadHandler_clickAttached_of_absent (d : Dom)
    (h : d.popup = none ∨ d.container = none ∨ d.overlay = none) :
    (loadHandler d).clickAttached = false := by
  rcases d with ⟨b, po, co, ov, cp⟩
  cases po <;> cases co <;> cases ov <;> cases cp <;> simp_all [loadHandler]

/-! ### Claim theorems -/

/-- Claim C1: for every page in which all four required elements (popup,
`.container`, overlay, close-popup) are present, after the load handler runs
to completion the popup's class list contains `show`, the container's class
list contains `blur`, the overlay's class list does not contain `hide`, and
the body's display style equals `block` (and the handler finishes without a
fault). -/
theorem load_opens_popup_when_all_present (d : Dom) (h : allPresent d) :
    popupShown (loadHandler d).dom = true ∧
    containerBlurred (loadHandler d).dom = true ∧
    hasClass (loadHandler d).dom.overlay "hide" = false ∧
    (loadHandler d).dom.body.display = "block" ∧
    (loadHandler d).fault = false := by
  obtain ⟨h1, h2, h3, h4⟩ := h
  rcases d with ⟨b, po, co, ov, cp⟩
  obtain ⟨p, rfl⟩ := Option.isSome_iff_exists.mp h1
  obtain ⟨c, rfl⟩ := Option.isSome_iff_exists.mp h2
  obtain ⟨o, rfl⟩ := Option.isSome_iff_exists.mp h3
  obtain ⟨q, rfl⟩ := Option.isSome_iff_exists.mp h4
  rw [loadHandler_present]
  simp [popupShown, containerBlurred, hasClass,
    mem_classAdd_self, not_mem_classRemove_self]

/-- Witness for C1 on a concrete page with all four elements present. -/
theorem load_opens_popup_when_all_present_witness :
    popupShown (loadHandler sampleDom).dom = true ∧
    containerBlurred (loadHandler sampleDom).dom = true ∧
    hasClass (loadHandler sampleDom).dom.overlay "hide" = false ∧
    (loadHandler sampleDom).dom.body.display = "block" ∧
    (loadHandler sampleDom).fault = false :=
  load_opens_popup_when_all_present sampleDom (by exact ⟨rfl, rfl, rfl, rfl⟩)

/-- Claim C2: on a page with all four elements present, a click on the close
control after load has completed removes `show` from the popup, removes
`blur` from the container, and adds `hide` to the overlay (and the handler
finishes without a fault). -/
theorem click_closes_popup_after_load (d : Dom) (h : allPresent d) :
    popupShown (clickHandler (loadHandler d).dom).dom = false ∧
    containerBlurred (clickHandler (loadHandler d).dom).dom = false ∧
    hasClass (clickHandler (loadHandler d).dom).dom.overlay "hide" = true ∧
    (clickHandler (loadHandler d).dom).fault = false := by
  obtain ⟨h1, h2, h3, h4⟩ := h
  rcases d with ⟨b, po, co, ov, cp⟩
  obtain ⟨p, rfl⟩ := Option.isSome_iff_exists.mp h1
  obtain ⟨c, rfl⟩ := Option.isSome_iff_exists.mp h2
  obtain ⟨o, rfl⟩ := Option.isSome_iff_exists.mp h3
  obtain ⟨q, rfl⟩ := Option.isSome_iff_exists.mp h4
  rw [loadHandler_present, clickHandler_present]
  simp [popupShown, containerBlurred, hasClass,
    mem_classAdd_self, not_mem_classRemove_self]

/-- Witness for C2 on a concrete page with all four elements present. -/
theorem click_closes_popup_after_load_witness :
    popupShown (clickHandler (loadHandler sampleDom).dom).dom = false ∧
    containerBlurred (clickHandler (loadHandler sampleDom).dom).dom = false ∧
    hasClass (clickHandler (loadHandler sampleDom).dom).dom.overlay "hide" = true ∧
    (clickHandler (loadHandler sampleDom).dom).fault = false :=
  click_closes_popup_after_load sampleDom (by exact ⟨rfl, rfl, rfl, rfl⟩)

/-- Claim C3: if any referenced element is absent, the load handler hits a
null-reference fault; the fault aborts only the remaining statements of the
handler — the timer was already scheduled and still fires (setting the
opacity) — and, in particular, when the popup is absent the container and
overlay mutations after the faulting line do not apply and the close
listener is never attached. -/
theorem absent_element_faults_load (d : Dom)
    (h : d.popup = none ∨ d.container = none ∨ d.overlay = none ∨
      d.closePopup = none) :
    (loadHandler d).fault = true ∧
    (loadHandler d).timers = [50] ∧
    (run (initSys d) [Ev.load, Ev.timer]).dom.body.opacity = "1" ∧
    (d.popup = none →
      (loadHandler d).dom.popup = none ∧
      (loadHandler d).dom.container = d.container ∧
      (loadHandler d).dom.overlay = d.overlay ∧
      (loadHandler d).clickAttached = false) := by
  refine ⟨loadHandler_fault_of_absent d h, loadHandler_timers d,
    run_load_timer_opacity d, fun hpo => ?_⟩
  rcases d with ⟨b, po, co, ov, cp⟩
  cases hpo
  rw [loadHandler_noPopup]
  exact ⟨rfl, rfl, rfl, rfl⟩

/-- Concrete sample page whose popup element is absent (the other three
elements are present). -/
def noPopupDom : Dom :=
  { sampleDom with popup := none }

/-- Witness for C3 on a concrete page whose popup element is absent. -/
theorem absent_element_faults_load_witness :
    (loadHandler noPopupDom).fault = true ∧
    (loadHandler noPopupDom).timers = [50] ∧
    (run (initSys noPopupDom) [Ev.load, Ev.timer]).dom.body.opacity = "1" ∧
    (loadHandler noPopupDom).dom.popup = none ∧
    (loadHandler noPopupDom).dom.container = noPopupDom.container ∧
    (loadHandler noPopupDom).dom.overlay = noPopupDom.overlay ∧
    (loadHandler noPopupDom).clickAttached = false := by
  obtain ⟨a, b, c, f⟩ := absent_element_faults_load noPopupDom (Or.inl rfl)
  exact ⟨a, b, c, f rfl⟩

/-- Claim C4: the load handler schedules exactly one deferred callback, with
a fixed 50-millisecond delay (single-shot and non-cancellable: the model
retains no handle and offers no cancellation, and the timer fires at most
once); when the pending timer fires the body's opacity equals `1`; and along
any trace in which the timer has not fired, the body's opacity is unchanged
from its pre-load value. -/
theorem timer_sets_opacity :
    (∀ d : Dom, (loadHandler d).timers = [50]) ∧
    (∀ s : Sys, s.timerPending = true →
      (step s Ev.timer).dom.body.opacity = "1") ∧
    (∀ (s : Sys) (tr : List Ev), Ev.timer ∉ tr →
      (run s tr).dom.body.opacity = s.dom.body.opacity) := by
  refine ⟨loadHandler_timers, fun s hs => ?_, run_opacity_of_not_timer⟩
  simp [step, hs, timerCallback]

/-- Witness for C4 on a concrete system state and a concrete timer-free
trace. -/
theorem timer_sets_opacity_witness :
    (loadHandler sampleDom).timers = [50] ∧
    (step ⟨sampleDom, true, true, true, false⟩ Ev.timer).dom.body.opacity = "1" ∧
    (run (initSys sampleDom) [Ev.load, Ev.click]).dom.body.opacity = "0" :=
  ⟨timer_sets_opacity.1 sampleDom,
    timer_sets_opacity.2.1 ⟨sampleDom, true, true, true, false⟩ rfl,
    (timer_sets_opacity.2.2 (initSys sampleDom) [Ev.load, Ev.click]
      (by decide)).trans rfl⟩

/-- Claim C5: the close click handler is idempotent — on every DOM state
with popup, container and overlay present, running it twice yields exactly
the same result as running it once, and running it even when the popup was
never opened produces the closed end state (no `show`, no `blur`, `hide`
present) with no fault. -/
theorem click_idempotent (d : Dom) (hp : d.popup.isSome)
    (hc : d.container.isSome) (ho : d.overlay.isSome) :
    clickHandler (clickHandler d).dom = clickHandler d ∧
    (clickHandler d).fault = false ∧
    popupShown (clickHandler d).dom = false ∧
    containerBlurred (clickHandler d).dom = false ∧
    hasClass (clickHandler d).dom.overlay "hide" = true := by
  rcases d with ⟨b, po, co, ov, cp⟩
  obtain ⟨p, rfl⟩ := Option.isSome_iff_exists.mp hp
  obtain ⟨c, rfl⟩ := Option.isSome_iff_exists.mp hc
  obtain ⟨o, rfl⟩ := Option.isSome_iff_exists.mp ho
  rw [clickHandler_present]
  refine ⟨?_, rfl, ?_⟩
  · rw [clickHandler_present]
    simp [classRemove_idem, classAdd_idem]
  · simp [popupShown, containerBlurred, hasClass,
      mem_classAdd_self, not_mem_classRemove_self]

/-- Witness for C5 on a concrete page whose popup was never opened. -/
theorem click_idempotent_witness :
    clickHandler (clickHandler sampleDom).dom = clickHandler sampleDom ∧
    (clickHandler sampleDom).fault = false ∧
    popupShown (clickHandler sampleDom).dom = false ∧
    containerBlurred (clickHandler sampleDom).dom = false ∧
    hasClass (clickHandler sampleDom).dom.overlay "hide" = true :=
  click_idempotent sampleDom rfl rfl rfl

/-- Claim C6: starting from a page with all four elements present whose
three popup-related booleans agree, every state reachable by any sequence of
host events keeps popup-shown, container-blurred, and overlay-visible in
lockstep (the timer event is independent: it only touches the body's
opacity). -/
theorem popup_booleans_lockstep (d : Dom) (tr : List Ev)
    (hp : allPresent d) (hs : inSync d) :
    inSync (run (initSys d) tr).dom :=
  (run_preserves_sync (initSys d) tr ⟨hp, hs⟩).2

/-- Witness for C6 on a concrete page and trace. -/
theorem popup_booleans_lockstep_witness :
    inSync (run (initSys sampleDom) [Ev.load, Ev.timer, Ev.click, Ev.click]).dom :=
  popup_booleans_lockstep sampleDom [Ev.load, Ev.timer, Ev.click, Ev.click]
    ⟨rfl, rfl, rfl, rfl⟩ ⟨rfl, rfl⟩

/-- Claim C7: the close-click listener is attached only inside the load
handler, so in every trace a state with the listener attached has a `load`
event before it, and a click dispatched while the listener is unattached
changes nothing — no close transition can occur before `load` fires. -/
theorem click_listener_only_after_load :
    (∀ (d : Dom) (tr : List Ev),
      (run (initSys d) tr).clickAttached = true → Ev.load ∈ tr) ∧
    (∀ s : Sys, s.clickAttached = false → step s Ev.click = s) :=
  ⟨fun d tr h => run_load_mem_of_clickAttached (initSys d) tr rfl h,
    step_click_notAttached⟩

/-- Witness for C7 on a concrete trace and a concrete unloaded state. -/
theorem click_listener_only_after_load_witness :
    Ev.load ∈ [Ev.click, Ev.load, Ev.click] ∧
    step (initSys sampleDom) Ev.click = initSys sampleDom :=
  ⟨click_listener_only_after_load.1 sampleDom [Ev.click, Ev.load, Ev.click]
      (by decide),
    click_listener_only_after_load.2 (initSys sampleDom) rfl⟩

/-- Claim C8: the script's only mutations of the body are the instant
display change (to `block`, by the load handler) and the delayed opacity
change (to `1`, by the timer callback); every other style property of the
body is preserved by every step, and the body is never destroyed (it is a
total component of the page state, and after the full load-then-timer run
it equals the original body with exactly those two fields updated). -/
theorem body_mutated_exactly_twice :
    (∀ (s : Sys) (e : Ev),
      (step s e).dom.body.rest = s.dom.body.rest ∧
      ((step s e).dom.body.display = s.dom.body.display ∨
        (e = Ev.load ∧ (step s e).dom.body.display = "block")) ∧
      ((step s e).dom.body.opacity = s.dom.body.opacity ∨
        (e = Ev.timer ∧ (step s e).dom.body.opacity = "1"))) ∧
    (∀ d : Dom, (run (initSys d) [Ev.load, Ev.timer]).dom.body =
      ⟨"block", "1", d.body.rest⟩) := by
  constructor
  · intro s e
    cases e
    · simp only [step]
      split
      · simp
      · simp [loadHandler_body]
    · simp only [step]
      split
      · simp [clickHandler_body]
      · simp
    · simp only [step]
      split
      · simp [timerCallback]
      · simp
  · intro d
    rw [run_cons, step_load_initSys, run_cons, run_nil]
    simp [step, timerCallback, loadHandler_body]

/-- Claim C9: if the popup, container, or overlay lookup faults during load,
the last statement of the load handler never runs, so the close-click
listener is never attached, and every later click on the close control
leaves the whole system state (the page included) unchanged. -/
theorem no_listener_after_load_fault (d : Dom)
    (h : d.popup = none ∨ d.container = none ∨ d.overlay = none) :
    (step (initSys d) Ev.load).clickAttached = false ∧
    ∀ tr : List Ev, (∀ e ∈ tr, e = Ev.click) →
      run (step (initSys d) Ev.load) tr = step (initSys d) Ev.load := by
  have ha : (step (initSys d) Ev.load).clickAttached = false := by
    rw [step_load_initSys]
    exact loadHandler_clickAttached_of_absent d h
  exact ⟨ha, fun tr htr => run_clicks_noop _ tr ha htr⟩

/-- Witness for C9 on a concrete page missing the popup and a concrete
trace of two clicks. -/
theorem no_listener_after_load_fault_witness :
    (step (initSys noPopupDom) Ev.load).clickAttached = false ∧
    run (step (initSys noPopupDom) Ev.load) [Ev.click, Ev.click] =
      step (initSys noPopupDom) Ev.load :=
  ⟨(no_listener_after_load_fault noPopupDom (Or.inl rfl)).1,
    (no_listener_after_load_fault noPopupDom (Or.inl rfl)).2
      [Ev.click, Ev.click] (by decide)⟩

/-- Claim C10: the close handler re-queries the DOM each invocation (it is a
function of the DOM at click time), so if the container is absent at click
time while popup and overlay are present, the handler removes `show` from
the popup and then faults: the overlay is untouched, `hide` is never added,
and — when the overlay was visible — the result has popup-shown false but
overlay-visible true, out of lockstep. -/
theorem click_partial_close_when_container_absent (d : Dom)
    (hp : d.popup.isSome) (hc : d.container = none) (ho : d.overlay.isSome) :
    (clickHandler d).fault = true ∧
    popupShown (clickHandler d).dom = false ∧
    (clickHandler d).dom.overlay = d.overlay ∧
    (hasClass d.overlay "hide" = false →
      overlayVisible (clickHandler d).dom = true ∧
      ¬inSync (clickHandler d).dom) := by
  rcases d with ⟨b, po, co, ov, cp⟩
  obtain ⟨p, rfl⟩ := Option.isSome_iff_exists.mp hp
  obtain ⟨o, rfl⟩ := Option.isSome_iff_exists.mp ho
  cases hc
  rw [clickHandler_noContainer]
  refine ⟨rfl, ?_, rfl, fun hv => ?_⟩
  · simp [popupShown, hasClass, not_mem_classRemove_self]
  · have hv2 : hasClass (some o) "hide" = false := hv
    simp only [hasClass, decide_eq_false_iff_not] at hv2
    constructor
    · simp [overlayVisible, hasClass, hv2]
    · simp [inSync, popupShown, containerBlurred, overlayVisible, hasClass,
        not_mem_classRemove_self, hv2]

/-- Concrete sample page at click time: popup open and overlay visible, but
the container element has been removed from the page. -/
def noContainerDom : Dom :=
  { sampleDom with
    popup := some ⟨["popup", "show"]⟩
    container := none
    overlay := some ⟨["overlay"]⟩ }

/-- Witness for C10 on that concrete page. -/
theorem click_partial_close_when_container_absent_witness :
    (clickHandler noContainerDom).fault = true ∧
    popupShown (clickHandler noContainerDom).dom = false ∧
    (clickHandler noContainerDom).dom.overlay = noContainerDom.overlay ∧
    overlayVisible (clickHandler noContainerDom).dom = true ∧
    ¬inSync (clickHandler noContainerDom).dom := by
  obtain ⟨a, b, c, f⟩ :=
    click_partial_close_when_container_absent noContainerDom rfl rfl rfl
  obtain ⟨v, ns⟩ := f (by decide)
  exact ⟨a, b, c, v, ns⟩
